import Mathlib

/-!
Shallow embedding of the LeRobot motor-safety and collision-detection
modules (`src/lerobot/motors/motor_safety.py` and
`src/lerobot/motors/collision_detection.py`).

Python floats are modelled as rationals (ℚ); the soft-start trajectory,
which uses `np.cos`, is modelled over ℝ.  Python dicts keyed by motor name
become association lists, deques with `maxlen` become capped lists, and
side effects (bus writes, violations, callbacks, log lines) become explicit
output values.
-/

namespace LeRobot

/-- Python `int(x)`: truncation toward zero. -/
def pyInt (x : ℚ) : ℤ := if 0 ≤ x then ⌊x⌋ else ⌈x⌉

/-- Python `dict.get(key, default)` over an association list. -/
def dictGet (d : List (String × ℚ)) (k : String) (default : ℚ) : ℚ :=
  match d.find? (fun p => p.1 == k) with
  | some p => p.2
  | none => default

/-- Python `xs[-n:]`: the last `n` elements of a list. -/
def lastN (n : ℕ) (xs : List ℚ) : List ℚ := xs.drop (xs.length - n)

/-- `np.mean` over a list of rationals (0 on the empty list, which the
code guards against anyway). -/
def qmean (xs : List ℚ) : ℚ := xs.sum / xs.length

/-- `np.sign`: 1, -1 or 0. -/
def qsign (x : ℚ) : ℚ := if 0 < x then 1 else if x < 0 then -1 else 0

/-- `np.clip(x, lo, hi)` for `lo ≤ hi`. -/
def qclip (x lo hi : ℚ) : ℚ := min (max x lo) hi

/-- Deque append with `maxlen`: append, then drop from the front down to
the cap. -/
def dequePush (maxlen : ℕ) (xs : List ℚ) (x : ℚ) : List ℚ :=
  let ys := xs ++ [x]
  ys.drop (ys.length - maxlen)

/-! ## motor_safety.py: thresholds and per-motor state -/

/-- `SafetyThresholds` (the fields the monitored rules read), with the
source defaults. -/
structure SafetyThresholds where
  temperature_warning : ℚ := 40
  temperature_critical : ℚ := 45
  temperature_shutdown : ℚ := 50
  current_stall_threshold : ℚ := 800
  current_stall_duration : ℚ := 1/2
  current_spike_threshold : ℚ := 1200
  soft_start_steps : ℕ := 10
  position_margin : ℚ := 5
  cooldown_temperature : ℚ := 35
deriving Repr, DecidableEq

/-- `MotorSafetyState` (the fields the monitored rules read and write). -/
structure MotorSafetyState where
  temperature : ℚ := 0
  current : ℚ := 0
  position : ℚ := 0
  high_current_start_time : Option ℚ := none
  is_stalled : Bool := false
  temperature_history : List ℚ := []
  max_temp_reached : ℚ := 0
deriving Repr, DecidableEq

/-- `_reduce_motor_torque`: the value written to `Torque_Limit`, namely
`int(current_torque * reduction)`. -/
def reduce_motor_torque (current_torque reduction : ℚ) : ℤ :=
  pyInt (current_torque * reduction)

/-- Observable effects of one `_check_current_stall` call: the
`Torque_Limit` write made by `_handle_current_spike`, and the violation /
torque-disable / callback performed by `_handle_stall_detected`. -/
structure StallCheckEffects where
  torque_write : Option ℤ := none
  stall_violation : Bool := false
  torque_disabled : Bool := false
  callback : Option (String × String × ℚ) := none
deriving Repr, DecidableEq

/-- `_check_current_stall` (with its two handlers inlined as effects).
`torque_limit` is the value `bus.read("Torque_Limit", motor)` would
return, `now` is `time.time()`. -/
def check_current_stall (th : SafetyThresholds) (motor : String)
    (torque_limit : ℚ) (now : ℚ) (s : MotorSafetyState) :
    MotorSafetyState × StallCheckEffects :=
  let current := s.current
  if th.current_spike_threshold ≤ current then
    (s, { torque_write := some (reduce_motor_torque torque_limit (3/10)) })
  else if th.current_stall_threshold ≤ current then
    match s.high_current_start_time with
    | none => ({ s with high_current_start_time := some now }, {})
    | some t0 =>
      let duration := now - t0
      if th.current_stall_duration ≤ duration then
        ({ s with is_stalled := true },
         { stall_violation := true, torque_disabled := true,
           callback := some ("stall_detected", motor, current) })
      else (s, {})
  else
    ({ s with high_current_start_time := none, is_stalled := false }, {})

/-- One poll sample for the stall rule: the cycle stores the (absolute)
current into the state, then runs `_check_current_stall`. -/
def stall_sample (th : SafetyThresholds) (motor : String) (torque_limit : ℚ)
    (s : MotorSafetyState) (t c : ℚ) : MotorSafetyState × StallCheckEffects :=
  check_current_stall th motor torque_limit t { s with current := c }

/-- Fold `stall_sample` over a list of `(time, current)` samples,
collecting the per-sample effects. -/
def run_stall (th : SafetyThresholds) (motor : String) (torque_limit : ℚ) :
    MotorSafetyState → List (ℚ × ℚ) → MotorSafetyState × List StallCheckEffects
  | s, [] => (s, [])
  | s, (t, c) :: rest =>
    let (s', e) := stall_sample th motor torque_limit s t c
    let (sf, es) := run_stall th motor torque_limit s' rest
    (sf, e :: es)

/-- Effects of a confirmed stall at current `c` on motor `motor`. -/
def stallFx (motor : String) (c : ℚ) : StallCheckEffects :=
  { stall_violation := true, torque_disabled := true,
    callback := some ("stall_detected", motor, c) }

/-! ## motor_safety.py: temperature check -/

/-- Which temperature handler `_check_temperature` dispatches to. -/
inductive TempEvent
  | shutdown
  | critical_warning
  | warning
deriving Repr, DecidableEq

/-- `_check_temperature`: track history (cap 100) and the running
maximum, then dispatch on the thresholds. -/
def check_temperature (th : SafetyThresholds) (s : MotorSafetyState) :
    MotorSafetyState × Option TempEvent :=
  let temp := s.temperature
  let hist := s.temperature_history ++ [temp]
  let hist := if 100 < hist.length then hist.drop 1 else hist
  let s' := { s with temperature_history := hist,
                     max_temp_reached := max s.max_temp_reached temp }
  if th.temperature_shutdown ≤ temp then (s', some TempEvent.shutdown)
  else if th.temperature_critical ≤ temp then (s', some TempEvent.critical_warning)
  else if th.temperature_warning ≤ temp then (s', some TempEvent.warning)
  else (s', none)

/-- The per-motor telemetry update at the top of the
`_perform_safety_checks` loop: missing motors default to 0 and the stored
current is the absolute value of the raw reading. -/
def update_motor_telemetry (temperatures currents positions : List (String × ℚ))
    (motor : String) (s : MotorSafetyState) : MotorSafetyState :=
  { s with temperature := dictGet temperatures motor 0,
           current := |dictGet currents motor 0|,
           position := dictGet positions motor 0 }

/-! ## motor_safety.py: global status and emergency stop -/

/-- `SafetyStatus`. -/
inductive SafetyStatus
  | normal
  | warning
  | critical
  | emergency_stop
deriving Repr, DecidableEq

/-- The monitor-level state `reset_emergency_stop` and
`_update_global_status` read and write. -/
structure MonitorState where
  motor_states : List (String × MotorSafetyState)
  emergency_stop_active : Bool
  status : SafetyStatus
deriving Repr, DecidableEq

/-- `_update_global_status`: recompute the global status from the
per-motor states and the emergency-stop flag. -/
def update_global_status (th : SafetyThresholds) (m : MonitorState) : MonitorState :=
  let has_critical := m.motor_states.any
    (fun p => p.2.is_stalled || decide (th.temperature_critical ≤ p.2.temperature))
  let has_warning := m.motor_states.any
    (fun p => !(p.2.is_stalled || decide (th.temperature_critical ≤ p.2.temperature)) &&
      decide (th.temperature_warning ≤ p.2.temperature))
  { m with status :=
      if m.emergency_stop_active then SafetyStatus.emergency_stop
      else if has_critical then SafetyStatus.critical
      else if has_warning then SafetyStatus.warning
      else SafetyStatus.normal }

/-- `emergency_stop`: set the flag and the status (the bus-wide torque
disable is an external effect). -/
def emergency_stop (m : MonitorState) : MonitorState :=
  { m with emergency_stop_active := true, status := SafetyStatus.emergency_stop }

/-- `reset_emergency_stop`: a no-op unless the stop is active and every
motor's last-read temperature is below `cooldown_temperature`; on success
it only clears the flag. -/
def reset_emergency_stop (th : SafetyThresholds) (m : MonitorState) : MonitorState :=
  if !m.emergency_stop_active then m
  else if m.motor_states.all (fun p => decide (p.2.temperature < th.cooldown_temperature)) then
    { m with emergency_stop_active := false }
  else m

/-! ## motor_safety.py: soft start (over ℝ, since the code uses np.cos) -/

/-- The `i`-th entry of the soft-start trajectory:
`current + 0.5*(1 - cos(π*(i+1)/steps)) * (target - current)`. -/
noncomputable def softStartPos (steps : ℕ) (target current : ℝ) (i : ℕ) : ℝ :=
  current + (1/2 * (1 - Real.cos (Real.pi * (((i : ℝ) + 1) / (steps : ℝ))))) *
    (target - current)

/-- `apply_soft_start`: the list of `soft_start_steps` intermediate
positions. -/
noncomputable def apply_soft_start (steps : ℕ) (target current : ℝ) : List ℝ :=
  (List.range steps).map (softStartPos steps target current)

/-- `x` lies strictly between `a` and `b` (in either order). -/
def strictlyBetween (a x b : ℝ) : Prop := (a < x ∧ x < b) ∨ (b < x ∧ x < a)

/-! ## collision_detection.py: configuration and per-motor state -/

/-- `CollisionConfig`, with the source defaults. -/
structure CollisionConfig where
  torque_threshold : ℚ := 3/10
  current_threshold : ℚ := 900
  collision_duration : ℚ := 3/10
  backoff_distance : ℚ := 1/10
  backoff_speed : ℚ := 1/2
  cooldown_period : ℚ := 2
  max_retries : ℕ := 3
  position_error_threshold : ℚ := 1/20
  consecutive_collisions_for_recal : ℕ := 5
  time_since_last_calibration : ℚ := 3600
deriving Repr, DecidableEq

/-- The per-motor entry of `collision_state` (`last_collision` omitted:
it is written but never read). -/
structure CollisionState where
  detecting : Bool := false
  collision_start : Option ℚ := none
  backed_off : Bool := false
  retry_count : ℕ := 0
  cooldown_until : ℚ := 0
deriving Repr, DecidableEq

/-- The action dictionary `detect_collision` returns (when any).
`backoff` carries `backoff_position`, `retry_count` and
`cooldown_period`; `abort` carries reason `max_retries_exceeded`;
`cooldown` carries `time_remaining`. -/
inductive CollisionAction
  | cooldown (time_remaining : ℚ)
  | abort
  | backoff (backoff_position : ℚ) (retry_count : ℕ) (cooldown_period : ℚ)
deriving Repr, DecidableEq

/-- The `(collision_detected, action_dict)` pair `detect_collision`
returns. -/
structure DetectResult where
  collision_detected : Bool
  action : Option CollisionAction
deriving Repr, DecidableEq

/-- The `is_resisting` predicate of `detect_collision`: high current (or
high torque when a load reading is present) while the position error
exceeds 0.02 (not at target). -/
def is_resisting (cfg : CollisionConfig) (current position target : ℚ)
    (load : Option ℚ) : Bool :=
  (decide (cfg.current_threshold < current) ||
    (match load with
     | some l => decide (cfg.torque_threshold < |l|)
     | none => false)) && decide ((1 : ℚ)/50 < |target - position|)

/-- `detect_collision` for one motor.  `range?` is the motor's declared
`(range_min, range_max)` when it has one, `now` is `time.time()`.
Returns the new per-motor state, the result pair, and whether this call
confirmed a collision (i.e. incremented `total_collisions`). -/
def detect_collision (cfg : CollisionConfig) (range? : Option (ℚ × ℚ))
    (now current position target : ℚ) (load : Option ℚ)
    (s : CollisionState) : CollisionState × DetectResult × Bool :=
  if now < s.cooldown_until then
    (s, ⟨false, some (CollisionAction.cooldown (s.cooldown_until - now))⟩, false)
  else
    let position_error := |target - position|
    if is_resisting cfg current position target load then
      let s1 := if !s.detecting then
          { s with detecting := true, collision_start := some now } else s
      let collision_duration := now - (s1.collision_start.getD now)
      if cfg.collision_duration ≤ collision_duration then
        let s2 := { s1 with detecting := false, retry_count := s1.retry_count + 1 }
        if cfg.max_retries ≤ s2.retry_count then
          (s2, ⟨true, some CollisionAction.abort⟩, true)
        else
          let backoff_direction := qsign (position - target)
          let bp := position + backoff_direction * cfg.backoff_distance
          let bp := match range? with
            | some r => qclip bp r.1 r.2
            | none => bp
          let s3 := { s2 with backed_off := true,
                              cooldown_until := now + cfg.cooldown_period }
          (s3, ⟨true, some (CollisionAction.backoff bp s2.retry_count cfg.cooldown_period)⟩,
           true)
      else (s1, ⟨false, none⟩, false)
    else
      let s1 := if s.detecting then
          { s with detecting := false, collision_start := none } else s
      let s2 := if s1.backed_off ∧ position_error < 1/20 then
          { s1 with backed_off := false, retry_count := 0 } else s1
      (s2, ⟨false, none⟩, false)

/-- Fold `detect_collision` (for a motor with no declared range and no
load reading) over a list of `(now, current, position, target)` calls. -/
def runDetect (cfg : CollisionConfig) :
    CollisionState → List (ℚ × ℚ × ℚ × ℚ) → CollisionState
  | s, [] => s
  | s, (now, current, position, target) :: rest =>
    runDetect cfg (detect_collision cfg none now current position target none s).1 rest

/-! ## collision_detection.py: recalibration -/

/-- One entry of a motor's `collision_history` deque. -/
structure CollisionRecord where
  time : ℚ
  position : ℚ
  target : ℚ
  current : ℚ
  load : Option ℚ
deriving Repr, DecidableEq

/-- Population variance, `(Σ (x - mean)²) / n`.  The source compares
`np.std(positions) < 0.02`; since both sides are nonnegative this is
equivalent to `variance < 0.02²`, which stays inside ℚ. -/
def variance (xs : List ℚ) : ℚ :=
  qmean (xs.map (fun x => (x - qmean xs) ^ 2))

/-- The detector-level mutable fields `_should_recalibrate` and
`trigger_recalibration` touch. -/
structure DetectorGlobals where
  last_calibration_time : ℚ
  total_collisions : ℕ
  collision_history : List (String × List CollisionRecord)
deriving Repr, DecidableEq

/-- `_should_recalibrate`: time since last calibration, total collision
count, or three recent collisions of some motor at nearly the same
position (`np.std < 0.02`, rendered as `variance < 0.02²`). -/
def should_recalibrate (cfg : CollisionConfig) (now : ℚ) (g : DetectorGlobals) : Bool :=
  if cfg.time_since_last_calibration < now - g.last_calibration_time then true
  else if cfg.consecutive_collisions_for_recal ≤ g.total_collisions then true
  else g.collision_history.any (fun p =>
    decide (3 ≤ p.2.length) &&
    decide (variance (lastN 3 (p.2.map CollisionRecord.position)) < (1/50) ^ 2))

/-- `trigger_recalibration`.  `cb?` is `none` when no recalibration
callback was injected (the body is then skipped entirely); otherwise it
carries the callback's outcome.  The second component is the logged
error message: a raising callback is caught and logged, never
propagated, and the counter/history resets survive it. -/
def trigger_recalibration (cb? : Option (Except String Unit)) (now : ℚ)
    (g : DetectorGlobals) : DetectorGlobals × Option String :=
  match cb? with
  | none => (g, none)
  | some r =>
    let g' : DetectorGlobals :=
      { last_calibration_time := now, total_collisions := 0,
        collision_history := g.collision_history.map (fun p => (p.1, [])) }
    match r with
    | Except.ok _ => (g', none)
    | Except.error e => (g', some ("Recalibration failed: " ++ e))

/-! ## collision_detection.py: adaptive performance monitoring -/

/-- `PerformanceMetrics`, with the source defaults (`cpu_usage` omitted:
it is never written or read). -/
structure PerformanceMetrics where
  smoothness_score : ℚ := 1
  latency_ms : ℚ := 0
  monitoring_frequency : ℚ := 2
  optimal_frequency : ℚ := 2
  latency_history : List ℚ := []
  smoothness_history : List ℚ := []
  position_jitter : List ℚ := []
deriving Repr, DecidableEq

/-- `_calculate_optimal_frequency`. -/
def calculate_optimal_frequency (m : PerformanceMetrics) : PerformanceMetrics :=
  if m.smoothness_history.length < 10 then m
  else
    let recent_smoothness := qmean (lastN 10 m.smoothness_history)
    let recent_latency :=
      if m.latency_history.isEmpty then 0 else qmean (lastN 10 m.latency_history)
    if recent_smoothness < 7/10 ∧ recent_latency < 20 then
      { m with optimal_frequency := min 10 (m.monitoring_frequency * (3/2)) }
    else if 9/10 < recent_smoothness ∧ 50 < recent_latency then
      { m with optimal_frequency := max 1 (m.monitoring_frequency * (7/10)) }
    else if 100 < recent_latency then
      { m with optimal_frequency := max (1/2) (m.monitoring_frequency * (1/2)) }
    else
      let target : ℚ :=
        if 4/5 < recent_smoothness then 2
        else if 3/5 < recent_smoothness then 5
        else 8
      { m with optimal_frequency :=
          (7/10) * m.monitoring_frequency + (3/10) * target }

/-- The detector state `update_smoothness_metrics` and `record_latency`
work on: the metrics plus `last_positions`. -/
structure PerfState where
  metrics : PerformanceMetrics := {}
  last_positions : List (String × ℚ) := []
deriving Repr, DecidableEq

/-- `update_smoothness_metrics`: per-motor jitter against the previous
positions, smoothness `max 0 (1 - avg_jitter * 10)`, then the adaptive
frequency calculation. -/
def update_smoothness_metrics (positions : List (String × ℚ)) (st : PerfState) :
    PerfState :=
  let m := st.metrics
  let m :=
    if st.last_positions.isEmpty then m
    else
      let position_deltas := (positions.filterMap (fun p =>
        match st.last_positions.find? (fun q => q.1 == p.1) with
        | some q => some |p.2 - q.2|
        | none => none))
      let m := { m with position_jitter :=
          position_deltas.foldl (dequePush 50) m.position_jitter }
      if position_deltas.isEmpty then m
      else
        let avg_jitter := qmean position_deltas
        let smoothness := max 0 (1 - avg_jitter * 10)
        { m with smoothness_score := smoothness,
                 smoothness_history := dequePush 100 m.smoothness_history smoothness }
  { metrics := calculate_optimal_frequency m, last_positions := positions }

/-- `record_latency`: append to the latency deque (cap 100) and refresh
the 10-sample average. -/
def record_latency (latency_ms : ℚ) (st : PerfState) : PerfState :=
  let lh := dequePush 100 st.metrics.latency_history latency_ms
  { st with metrics :=
      { st.metrics with latency_history := lh, latency_ms := qmean (lastN 10 lh) } }

/-- `get_adaptive_frequency`. -/
def get_adaptive_frequency (st : PerfState) : ℚ := st.metrics.optimal_frequency

/-- One call into the performance-tracking interface. -/
inductive PerfOp
  | update (positions : List (String × ℚ))
  | latency (ms : ℚ)
deriving Repr

/-- Run a sequence of performance-tracking calls. -/
def runPerf : PerfState → List PerfOp → PerfState
  | st, [] => st
  | st, PerfOp.update ps :: rest => runPerf (update_smoothness_metrics ps st) rest
  | st, PerfOp.latency ms :: rest => runPerf (record_latency ms st) rest

/-! ## collision_detection.py: safe_move_with_collision_detection -/

/-- The `active_movements` entry for one motor. -/
structure MovementState where
  backed_off : Bool := false
  abort : Bool := false
deriving Repr, DecidableEq

/-- The loop's effective-target lookup, `action['backoff_position'] if
backed_off else target`: Python subscripting of the per-cycle `action`
value, which raises (`KeyError` / `TypeError`, modelled as `none`) unless
`action` is a backoff dictionary. -/
def effective_target (backed_off : Bool) (target : ℚ)
    (action : Option CollisionAction) : Option ℚ :=
  if backed_off then
    match action with
    | some (CollisionAction.backoff bp _ _) => some bp
    | _ => none
  else some target

/-- One iteration of the `safe_move_with_collision_detection` loop body
for a single motor: run collision detection, apply the backoff / abort
bookkeeping, then evaluate the completion check.  The last component is
`some complete?` when the check runs (aborted motors count complete by
being skipped) and `none` when the Python code would raise. -/
def safe_move_cycle_motor (cfg : CollisionConfig) (range? : Option (ℚ × ℚ))
    (now current position target : ℚ) (load : Option ℚ)
    (cs : CollisionState) (mov : MovementState) :
    CollisionState × MovementState × Option Bool :=
  if mov.abort then (cs, mov, some true)
  else
    let (cs', r, _) := detect_collision cfg range? now current position target load cs
    let mov' :=
      if r.collision_detected then
        match r.action with
        | some (CollisionAction.backoff _ _ _) => { mov with backed_off := true }
        | some CollisionAction.abort => { mov with abort := true }
        | _ => mov
      else mov
    if mov'.abort then (cs', mov', some true)
    else
      match effective_target mov'.backed_off target r.action with
      | some tp => (cs', mov', some (decide (¬ (1/50 : ℚ) < |position - tp|)))
      | none => (cs', mov', none)

/-! ## Theorems -/

/-- C2, counterexample: with the default thresholds, a current spike on a
motor whose `Torque_Limit` reads 1000 makes the monitor write 300 — not
700, which is what "reduced by 30% (70% of the old value remains)" would
give. -/
theorem spike_torque_cut_counterexample :
    (check_current_stall {} "m1" 1000 0 { current := 1500 }).2.torque_write = some 300 ∧
      (check_current_stall {} "m1" 1000 0 { current := 1500 }).2.torque_write ≠
        some (pyInt (1000 * (7/10))) := by
  have h : check_current_stall {} "m1" 1000 0 { current := 1500 } =
      ({ current := 1500 }, { torque_write := some (pyInt ((1000 : ℚ) * (3/10))) }) := by
    unfold check_current_stall reduce_motor_torque
    norm_num
  have h3 : pyInt ((1000 : ℚ) * (3/10)) = 300 := by unfold pyInt; norm_num
  have h7 : pyInt ((1000 : ℚ) * (7/10)) = 700 := by unfold pyInt; norm_num
  rw [h, h3, h7]
  exact ⟨rfl, by simp⟩

/-- C2 (amended): whenever a sample's current is at or above
`current_spike_threshold`, `_check_current_stall` immediately (single
sample) writes `Torque_Limit := int(old * 0.3)` — a 70% reduction, 30%
of the old value remains — leaves the motor state (in particular the
stall timer and the stalled flag) untouched, and records no stall
violation. -/
theorem current_spike_immediate_torque_cut (th : SafetyThresholds)
    (motor : String) (torque_limit now : ℚ) (s : MotorSafetyState)
    (h : th.current_spike_threshold ≤ s.current) :
    check_current_stall th motor torque_limit now s =
      (s, { torque_write := some (pyInt (torque_limit * (3/10))) }) := by
  unfold check_current_stall reduce_motor_torque
  rw [if_pos h]

/-- C2, witness for `current_spike_immediate_torque_cut` at the default
thresholds, current 1500 mA, `Torque_Limit` 1000. -/
theorem current_spike_immediate_torque_cut_witness :
    ({} : SafetyThresholds).current_spike_threshold ≤
        ({ current := 1500 } : MotorSafetyState).current ∧
      check_current_stall {} "m1" 1000 0 { current := 1500 } =
        ({ current := 1500 }, { torque_write := some (pyInt (1000 * (3/10))) }) :=
  ⟨by norm_num, current_spike_immediate_torque_cut {} "m1" 1000 0 _ (by norm_num)⟩

/-- C1: a motor that backed off on an earlier cycle and reports no new
collision on the current cycle (here: the detector is in its cooldown
window, so `detect_collision` returns the `cooldown` dictionary) makes
the completion check fault: `action['backoff_position']` is evaluated on
a dictionary without that key (`none` in this model), instead of
comparing the position against the stored backoff target. -/
theorem backed_off_completion_check_faults :
    (safe_move_cycle_motor {} none 1 0 0 1 none
        { backed_off := true, retry_count := 1, cooldown_until := 2 }
        { backed_off := true }).2.2 = none := by
  rfl

/-- C8: once `total_collisions` reaches
`consecutive_collisions_for_recal`, `_should_recalibrate()` returns
true; and with an injected callback, `trigger_recalibration()` resets
the collision counter to zero, clears every motor's history, resets the
calibration timestamp, and returns normally whether the callback
succeeds or raises — a raising callback only produces a logged error. -/
theorem recalibration_trigger_and_reset (cfg : CollisionConfig) (now : ℚ)
    (g : DetectorGlobals)
    (h : cfg.consecutive_collisions_for_recal ≤ g.total_collisions) :
    should_recalibrate cfg now g = true ∧
      ∀ r : Except String Unit,
        trigger_recalibration (some r) now g =
          ({ last_calibration_time := now, total_collisions := 0,
             collision_history := g.collision_history.map (fun p => (p.1, [])) },
           match r with
           | Except.ok _ => none
           | Except.error e => some ("Recalibration failed: " ++ e)) := by
  refine ⟨?_, ?_⟩
  · unfold should_recalibrate
    rcases lt_or_le cfg.time_since_last_calibration (now - g.last_calibration_time) with
      h1 | h1
    · rw [if_pos h1]
    · rw [if_neg (not_lt.mpr h1), if_pos h]
  · intro r
    cases r <;> rfl

/-- C8, witness for `recalibration_trigger_and_reset`: 5 total collisions
at the default configuration, one motor with a nonempty history, a
raising callback. -/
theorem recalibration_trigger_and_reset_witness :
    ({} : CollisionConfig).consecutive_collisions_for_recal ≤
        (⟨0, 5, [("m1", [⟨1, 2, 3, 950, none⟩])]⟩ : DetectorGlobals).total_collisions ∧
      (should_recalibrate {} 10 ⟨0, 5, [("m1", [⟨1, 2, 3, 950, none⟩])]⟩ = true ∧
        ∀ r : Except String Unit,
          trigger_recalibration (some r) 10 ⟨0, 5, [("m1", [⟨1, 2, 3, 950, none⟩])]⟩ =
            (⟨10, 0, [("m1", [])]⟩,
             match r with
             | Except.ok _ => none
             | Except.error e => some ("Recalibration failed: " ++ e))) :=
  ⟨by norm_num, recalibration_trigger_and_reset {} 10 _ (by norm_num)⟩

/-- C10: a motor absent from all three batch reads is given default
telemetry (temperature 0, current 0, position 0) rather than raising or
being skipped; the stored current is always the absolute value of the
raw reading; and (for positive thresholds, as the defaults are) the
defaulted motor triggers no temperature event and no spike or stall —
the stall branch merely clears the timer and the stalled flag. -/
theorem missing_motor_harmless (temperatures currents positions : List (String × ℚ))
    (motor : String) (s s' : MotorSafetyState) (th : SafetyThresholds)
    (torque_limit now : ℚ)
    (hs' : s' = update_motor_telemetry temperatures currents positions motor s)
    (ht : temperatures.find? (fun p => p.1 == motor) = none)
    (hc : currents.find? (fun p => p.1 == motor) = none)
    (hp : positions.find? (fun p => p.1 == motor) = none)
    (hw : 0 < th.temperature_warning) (hcr : 0 < th.temperature_critical)
    (hsh : 0 < th.temperature_shutdown) (hst : 0 < th.current_stall_threshold)
    (hsp : 0 < th.current_spike_threshold) :
    s'.temperature = 0 ∧ s'.current = 0 ∧ s'.position = 0 ∧
      (∀ s₀ : MotorSafetyState,
        (update_motor_telemetry temperatures currents positions motor s₀).current =
          |dictGet currents motor 0|) ∧
      (check_temperature th s').2 = none ∧
      check_current_stall th motor torque_limit now s' =
        ({ s' with high_current_start_time := none, is_stalled := false }, {}) := by
  have htemp : s'.temperature = 0 := by
    rw [hs']; simp [update_motor_telemetry, dictGet, ht]
  have hcur : s'.current = 0 := by
    rw [hs']; simp [update_motor_telemetry, dictGet, hc]
  have hpos : s'.position = 0 := by
    rw [hs']; simp [update_motor_telemetry, dictGet, hp]
  refine ⟨htemp, hcur, hpos, fun s₀ => rfl, ?_, ?_⟩
  · unfold check_temperature
    rw [htemp, if_neg (by linarith), if_neg (by linarith), if_neg (by linarith)]
  · unfold check_current_stall
    rw [hcur, if_neg (by linarith), if_neg (by linarith)]

/-- C10, witness for `missing_motor_harmless`: default thresholds and
three batch reads that mention only motor `"m1"`, checked for the
missing motor `"m2"`. -/
theorem missing_motor_harmless_witness :
    (update_motor_telemetry [("m1", 41)] [("m1", -900)] [("m1", 7)] "m2" {}).temperature
        = 0 ∧
      (update_motor_telemetry [("m1", 41)] [("m1", -900)] [("m1", 7)] "m2" {}).current
        = 0 ∧
      (check_temperature {} (update_motor_telemetry [("m1", 41)] [("m1", -900)]
        [("m1", 7)] "m2" {})).2 = none := by
  have h := missing_motor_harmless [("m1", 41)] [("m1", -900)] [("m1", 7)] "m2" {} _ {}
    1000 0 rfl (by rfl) (by rfl) (by rfl) (by norm_num) (by norm_num) (by norm_num)
    (by norm_num) (by norm_num)
  exact ⟨h.1, h.2.1, h.2.2.2.2.1⟩

/-- C4, counterexample: with the default thresholds, a monitor in
emergency stop whose single motor reads 20 °C (below the 35 °C cooldown)
but still has `is_stalled` set lets `reset_emergency_stop()` clear the
flag, yet the recomputed global status is CRITICAL, not NORMAL. -/
theorem reset_estop_status_counterexample :
    (update_global_status {} (reset_emergency_stop {}
        { motor_states := [("m1", { temperature := 20, is_stalled := true })],
          emergency_stop_active := true,
          status := SafetyStatus.emergency_stop })).emergency_stop_active = false ∧
      (update_global_status {} (reset_emergency_stop {}
        { motor_states := [("m1", { temperature := 20, is_stalled := true })],
          emergency_stop_active := true,
          status := SafetyStatus.emergency_stop })).status ≠ SafetyStatus.normal := by
  have hr : reset_emergency_stop {}
      ({ motor_states := [("m1", { temperature := 20, is_stalled := true })],
         emergency_stop_active := true,
         status := SafetyStatus.emergency_stop } : MonitorState) =
      { motor_states := [("m1", { temperature := 20, is_stalled := true })],
        emergency_stop_active := false,
        status := SafetyStatus.emergency_stop } := by
    unfold reset_emergency_stop
    norm_num
  rw [hr]
  unfold update_global_status
  norm_num
  decide

/-- C4 (amended): while the stop is active, `reset_emergency_stop()` is
an exact no-op whenever some motor's last-read temperature is at or
above `cooldown_temperature`; once every motor is below it, the reset
clears `emergency_stop_active` (and changes nothing else); and the
global status recomputed by `_update_global_status` then returns to
NORMAL provided additionally no motor is stalled (and the thresholds are
ordered as the defaults are, `cooldown ≤ warning ≤ critical`). -/
theorem reset_emergency_stop_spec (th : SafetyThresholds) (m : MonitorState)
    (hact : m.emergency_stop_active = true) :
    ((∃ p ∈ m.motor_states, th.cooldown_temperature ≤ p.2.temperature) →
        reset_emergency_stop th m = m) ∧
      ((∀ p ∈ m.motor_states, p.2.temperature < th.cooldown_temperature) →
        reset_emergency_stop th m = { m with emergency_stop_active := false }) ∧
      ((∀ p ∈ m.motor_states, p.2.temperature < th.cooldown_temperature) →
        (∀ p ∈ m.motor_states, p.2.is_stalled = false) →
        th.cooldown_temperature ≤ th.temperature_warning →
        th.temperature_warning ≤ th.temperature_critical →
        (update_global_status th (reset_emergency_stop th m)).status =
          SafetyStatus.normal) := by
  have hr2 : (∀ p ∈ m.motor_states, p.2.temperature < th.cooldown_temperature) →
      reset_emergency_stop th m = { m with emergency_stop_active := false } := by
    intro hcold
    unfold reset_emergency_stop
    rw [hact]
    have hall : (m.motor_states.all fun p =>
        decide (p.2.temperature < th.cooldown_temperature)) = true := by
      rw [List.all_eq_true]
      intro p hp
      simpa using hcold p hp
    simp [hall]
  refine ⟨?_, hr2, ?_⟩
  · rintro ⟨p0, hmem, hhot⟩
    unfold reset_emergency_stop
    rw [hact]
    have hall : (m.motor_states.all fun p =>
        decide (p.2.temperature < th.cooldown_temperature)) = false := by
      rw [List.all_eq_false]
      exact ⟨p0, hmem, by simpa using not_lt.mpr hhot⟩
    simp [hall]
  · intro hcold hstall h1 h2
    rw [hr2 hcold]
    unfold update_global_status
    have hcrit : (({ m with emergency_stop_active := false } :
        MonitorState).motor_states.any fun p =>
        p.2.is_stalled || decide (th.temperature_critical ≤ p.2.temperature)) = false := by
      rw [List.any_eq_false]
      intro p hp
      simp only [Bool.or_eq_true, decide_eq_true_eq, not_or]
      refine ⟨by simp [hstall p hp], not_le.mpr ?_⟩
      calc p.2.temperature < th.cooldown_temperature := hcold p hp
        _ ≤ th.temperature_warning := h1
        _ ≤ th.temperature_critical := h2
    have hwarn : (({ m with emergency_stop_active := false } :
        MonitorState).motor_states.any fun p =>
        !(p.2.is_stalled || decide (th.temperature_critical ≤ p.2.temperature)) &&
          decide (th.temperature_warning ≤ p.2.temperature)) = false := by
      rw [List.any_eq_false]
      intro p hp
      simp only [Bool.and_eq_true, decide_eq_true_eq, not_and]
      intro _
      exact not_le.mpr (lt_of_lt_of_le (hcold p hp) h1)
    rw [hcrit, hwarn]
    simp

/-- C4, witness for `reset_emergency_stop_spec`: default thresholds, one
motor at 20 °C, not stalled, stop active. -/
theorem reset_emergency_stop_spec_witness :
    ({ motor_states := [("m1", { temperature := 20 })],
       emergency_stop_active := true,
       status := SafetyStatus.emergency_stop } : MonitorState).emergency_stop_active
        = true ∧
      reset_emergency_stop {}
          { motor_states := [("m1", { temperature := 20 })],
            emergency_stop_active := true, status := SafetyStatus.emergency_stop } =
        { motor_states := [("m1", { temperature := 20 })],
          emergency_stop_active := false, status := SafetyStatus.emergency_stop } ∧
      (update_global_status {} (reset_emergency_stop {}
          { motor_states := [("m1", { temperature := 20 })],
            emergency_stop_active := true,
            status := SafetyStatus.emergency_stop })).status = SafetyStatus.normal := by
  have h := reset_emergency_stop_spec {}
    { motor_states := [("m1", { temperature := 20 })],
      emergency_stop_active := true, status := SafetyStatus.emergency_stop } rfl
  have hcold : ∀ p ∈ [(("m1" : String),
      ({ temperature := 20 } : MotorSafetyState))], p.2.temperature < (35 : ℚ) := by
    intro p hp
    rw [List.mem_singleton] at hp
    subst hp
    norm_num
  exact ⟨rfl, h.2.1 hcold, h.2.2 hcold
    (by intro p hp; rw [List.mem_singleton] at hp; subst hp; rfl)
    (by norm_num) (by norm_num)⟩

/-- The Bool `is_resisting` unpacked as a proposition. -/
theorem is_resisting_iff (cfg : CollisionConfig) (current position target : ℚ)
    (load : Option ℚ) :
    is_resisting cfg current position target load = true ↔
      ((cfg.current_threshold < current ∨
          ∃ l, load = some l ∧ cfg.torque_threshold < |l|) ∧
        1/50 < |target - position|) := by
  cases load <;> simp [is_resisting]

/-- C6: a collision confirmed after at least `collision_duration` seconds
of sustained resistance (with the incremented retry count still below
`max_retries`) yields `action = backoff` at position
`position + sign(position - target) * backoff_distance`, clamped to the
motor's declared range when one is known, and sets
`cooldown_until = now + cooldown_period`; and any call made while
`now < cooldown_until` skips all detection logic, changes no state, and
returns `action = cooldown` with the remaining time. -/
theorem confirmed_collision_backoff_and_cooldown (cfg : CollisionConfig)
    (range? : Option (ℚ × ℚ)) (now current position target t0 : ℚ)
    (load : Option ℚ) (s : CollisionState)
    (hcool : s.cooldown_until ≤ now)
    (hdet : s.detecting = true) (hstart : s.collision_start = some t0)
    (hres : is_resisting cfg current position target load = true)
    (hdur : cfg.collision_duration ≤ now - t0)
    (hretry : s.retry_count + 1 < cfg.max_retries) :
    detect_collision cfg range? now current position target load s =
      ({ s with detecting := false, retry_count := s.retry_count + 1,
                backed_off := true, cooldown_until := now + cfg.cooldown_period },
       ⟨true, some (CollisionAction.backoff
          (match range? with
           | some r => qclip (position + qsign (position - target) * cfg.backoff_distance)
               r.1 r.2
           | none => position + qsign (position - target) * cfg.backoff_distance)
          (s.retry_count + 1) cfg.cooldown_period)⟩, true) ∧
      ∀ (s' : CollisionState) (now' current' position' target' : ℚ) (load' : Option ℚ),
        now' < s'.cooldown_until →
        detect_collision cfg range? now' current' position' target' load' s' =
          (s', ⟨false, some (CollisionAction.cooldown (s'.cooldown_until - now'))⟩,
           false) := by
  constructor
  · have h1 : ¬ now < s.cooldown_until := not_lt.mpr hcool
    have h2 : ¬ cfg.max_retries ≤ s.retry_count + 1 := not_le.mpr hretry
    simp [detect_collision, h1, h2, hres, hdet, hstart, hdur]
  · intro s' now' current' position' target' load' h'
    unfold detect_collision
    rw [if_pos h']

/-- C6, witness for `confirmed_collision_backoff_and_cooldown`: default
configuration, detection running since t = 0, confirmation at t = 0.3
with current 1000 mA, position 0.5, target 0, declared range [0, 1]; and
a cooldown call at t = 1 against `cooldown_until = 2`. -/
theorem confirmed_collision_backoff_and_cooldown_witness :
    ({ detecting := true, collision_start := some 0 } :
        CollisionState).cooldown_until ≤ (3/10 : ℚ) ∧
      is_resisting {} 1000 (1/2) 0 none = true ∧
      detect_collision {} (some (0, 1)) (3/10) 1000 (1/2) 0 none
          { detecting := true, collision_start := some 0 } =
        ({ detecting := false, retry_count := 1, backed_off := true,
           cooldown_until := 3/10 + 2, collision_start := some 0 },
         ⟨true, some (CollisionAction.backoff
            (qclip ((1/2) + qsign ((1/2) - 0) * (1/10)) 0 1) 1 2)⟩, true) ∧
      detect_collision {} (some (0, 1)) 1 0 0 0 none { cooldown_until := 2 } =
        ({ cooldown_until := 2 },
         ⟨false, some (CollisionAction.cooldown (2 - 1))⟩, false) := by
  have hres : is_resisting {} 1000 (1/2) 0 none = true := by
    rw [is_resisting_iff]
    norm_num
    rw [abs_of_pos (by norm_num : (0:ℚ) < 1/2)]
    norm_num
  have h := confirmed_collision_backoff_and_cooldown {} (some (0, 1)) (3/10) 1000
    (1/2) 0 0 none { detecting := true, collision_start := some 0 }
    (by norm_num) rfl rfl hres (by norm_num) (by norm_num)
  exact ⟨by norm_num, hres, h.1, h.2 { cooldown_until := 2 } 1 0 0 0 none (by norm_num)⟩

/-- C3, counterexample: with the default configuration (max_retries = 3),
eight `detect_collision` calls on one motor — four confirmed collisions,
the third and fourth of which abort — leave `retry_count = 4`, exceeding
`max_retries`: an abort neither resets the counter nor prevents further
confirmations from incrementing it. -/
theorem retry_count_exceeds_max_counterexample :
    (runDetect {} {} [(0, 1000, 0, 1), (1, 1000, 0, 1), (4, 1000, 0, 1), (5, 1000, 0, 1),
        (8, 1000, 0, 1), (9, 1000, 0, 1), (10, 1000, 0, 1),
        (11, 1000, 0, 1)]).retry_count = 4 ∧
      ¬ (runDetect {} {} [(0, 1000, 0, 1), (1, 1000, 0, 1), (4, 1000, 0, 1),
        (5, 1000, 0, 1), (8, 1000, 0, 1), (9, 1000, 0, 1), (10, 1000, 0, 1),
        (11, 1000, 0, 1)]).retry_count ≤ ({} : CollisionConfig).max_retries := by
  have h1 : detect_collision {} none 0 1000 0 1 none {} =
      ({ detecting := true, collision_start := some 0 }, ⟨false, none⟩, false) := by
    norm_num [detect_collision, is_resisting]
  have h2 : detect_collision {} none 1 1000 0 1 none
        { detecting := true, collision_start := some 0 } =
      ({ detecting := false, collision_start := some 0, backed_off := true,
         retry_count := 1, cooldown_until := 3 },
       ⟨true, some (CollisionAction.backoff (-1/10) 1 2)⟩, true) := by
    norm_num [detect_collision, is_resisting, qsign]
  have h3 : detect_collision {} none 4 1000 0 1 none
        { detecting := false, collision_start := some 0, backed_off := true,
          retry_count := 1, cooldown_until := 3 } =
      ({ detecting := true, collision_start := some 4, backed_off := true,
         retry_count := 1, cooldown_until := 3 }, ⟨false, none⟩, false) := by
    norm_num [detect_collision, is_resisting]
  have h4 : detect_collision {} none 5 1000 0 1 none
        { detecting := true, collision_start := some 4, backed_off := true,
          retry_count := 1, cooldown_until := 3 } =
      ({ detecting := false, collision_start := some 4, backed_off := true,
         retry_count := 2, cooldown_until := 7 },
       ⟨true, some (CollisionAction.backoff (-1/10) 2 2)⟩, true) := by
    norm_num [detect_collision, is_resisting, qsign]
  have h5 : detect_collision {} none 8 1000 0 1 none
        { detecting := false, collision_start := some 4, backed_off := true,
          retry_count := 2, cooldown_until := 7 } =
      ({ detecting := true, collision_start := some 8, backed_off := true,
         retry_count := 2, cooldown_until := 7 }, ⟨false, none⟩, false) := by
    norm_num [detect_collision, is_resisting]
  have h6 : detect_collision {} none 9 1000 0 1 none
        { detecting := true, collision_start := some 8, backed_off := true,
          retry_count := 2, cooldown_until := 7 } =
      ({ detecting := false, collision_start := some 8, backed_off := true,
         retry_count := 3, cooldown_until := 7 },
       ⟨true, some CollisionAction.abort⟩, true) := by
    norm_num [detect_collision, is_resisting]
  have h7 : detect_collision {} none 10 1000 0 1 none
        { detecting := false, collision_start := some 8, backed_off := true,
          retry_count := 3, cooldown_until := 7 } =
      ({ detecting := true, collision_start := some 10, backed_off := true,
         retry_count := 3, cooldown_until := 7 }, ⟨false, none⟩, false) := by
    norm_num [detect_collision, is_resisting]
  have h8 : detect_collision {} none 11 1000 0 1 none
        { detecting := true, collision_start := some 10, backed_off := true,
          retry_count := 3, cooldown_until := 7 } =
      ({ detecting := false, collision_start := some 10, backed_off := true,
         retry_count := 4, cooldown_until := 7 },
       ⟨true, some CollisionAction.abort⟩, true) := by
    norm_num [detect_collision, is_resisting]
  have hrun : runDetect {} {} [(0, 1000, 0, 1), (1, 1000, 0, 1), (4, 1000, 0, 1),
      (5, 1000, 0, 1), (8, 1000, 0, 1), (9, 1000, 0, 1), (10, 1000, 0, 1),
      (11, 1000, 0, 1)] =
      { detecting := false, collision_start := some 10, backed_off := true,
        retry_count := 4, cooldown_until := 7 } := by
    simp only [runDetect, h1, h2, h3, h4, h5, h6, h7, h8]
  rw [hrun]
  exact ⟨rfl, by norm_num⟩

/-- C3 (amended): on every `detect_collision` call, a confirmed collision
increments `retry_count` by exactly one and returns `abort` (reason
max_retries_exceeded) precisely when the incremented count has reached
`max_retries` — so every confirmed collision from the `max_retries`-th
onward aborts rather than backs off — and `retry_count` is reset to 0
only by a call with no resistance signature on a backed-off motor whose
position error is below 0.05.  (The original bound
`retry_count ≤ max_retries` does not hold: see the counterexample.) -/
theorem retry_count_step_spec (cfg : CollisionConfig) (range? : Option (ℚ × ℚ))
    (now current position target : ℚ) (load : Option ℚ) (s : CollisionState) :
    ((detect_collision cfg range? now current position target load s).2.2 = true →
        (detect_collision cfg range? now current position target load s).1.retry_count =
            s.retry_count + 1 ∧
          ((detect_collision cfg range? now current position target
              load s).2.1.action = some CollisionAction.abort ↔
            cfg.max_retries ≤ s.retry_count + 1)) ∧
      ((detect_collision cfg range? now current position target load s).1.retry_count
          = 0 →
        s.retry_count = 0 ∨
          (is_resisting cfg current position target load = false ∧
            s.backed_off = true ∧ |target - position| < 1/20)) := by
  by_cases hc : now < s.cooldown_until
  · have hd : detect_collision cfg range? now current position target load s =
        (s, ⟨false, some (CollisionAction.cooldown (s.cooldown_until - now))⟩, false) := by
      unfold detect_collision
      rw [if_pos hc]
    rw [hd]
    exact ⟨by simp, fun h0 => Or.inl h0⟩
  · by_cases hr : is_resisting cfg current position target load = true
    · -- resisting branch; split on whether detection was already running
      by_cases hdet : s.detecting = true
      · by_cases hdur : cfg.collision_duration ≤ now - s.collision_start.getD now
        · by_cases hmax : cfg.max_retries ≤ s.retry_count + 1
          · have hd : detect_collision cfg range? now current position target load s =
                ({ s with detecting := false, retry_count := s.retry_count + 1 },
                 ⟨true, some CollisionAction.abort⟩, true) := by
              simp [detect_collision, hc, hr, hdet, hdur, hmax]
            rw [hd]
            exact ⟨fun _ => ⟨rfl, iff_of_true rfl hmax⟩, by simp⟩
          · have hd : detect_collision cfg range? now current position target load s =
                ({ s with detecting := false, retry_count := s.retry_count + 1,
                          backed_off := true,
                          cooldown_until := now + cfg.cooldown_period },
                 ⟨true, some (CollisionAction.backoff
                    (match range? with
                     | some r => qclip (position + qsign (position - target) *
                         cfg.backoff_distance) r.1 r.2
                     | none => position + qsign (position - target) *
                         cfg.backoff_distance)
                    (s.retry_count + 1) cfg.cooldown_period)⟩, true) := by
              simp [detect_collision, hc, hr, hdet, hdur, hmax]
            rw [hd]
            refine ⟨fun _ => ⟨rfl, iff_of_false (by simp) hmax⟩, by simp⟩
        · have hd : detect_collision cfg range? now current position target load s =
              (s, ⟨false, none⟩, false) := by
            simp [detect_collision, hc, hr, hdet, hdur]
          rw [hd]
          exact ⟨by simp, fun h0 => Or.inl h0⟩
      · have hdet' : s.detecting = false := by simpa using hdet
        by_cases hdur : cfg.collision_duration ≤ (0 : ℚ)
        · by_cases hmax : cfg.max_retries ≤ s.retry_count + 1
          · have hd : detect_collision cfg range? now current position target load s =
                ({ s with detecting := false, collision_start := some now,
                          retry_count := s.retry_count + 1 },
                 ⟨true, some CollisionAction.abort⟩, true) := by
              simp [detect_collision, hc, hr, hdet', hdur, hmax]
            rw [hd]
            exact ⟨fun _ => ⟨rfl, iff_of_true rfl hmax⟩, by simp⟩
          · have hd : detect_collision cfg range? now current position target load s =
                ({ s with detecting := false, collision_start := some now,
                          retry_count := s.retry_count + 1, backed_off := true,
                          cooldown_until := now + cfg.cooldown_period },
                 ⟨true, some (CollisionAction.backoff
                    (match range? with
                     | some r => qclip (position + qsign (position - target) *
                         cfg.backoff_distance) r.1 r.2
                     | none => position + qsign (position - target) *
                         cfg.backoff_distance)
                    (s.retry_count + 1) cfg.cooldown_period)⟩, true) := by
              simp [detect_collision, hc, hr, hdet', hdur, hmax]
            rw [hd]
            refine ⟨fun _ => ⟨rfl, iff_of_false (by simp) hmax⟩, by simp⟩
        · have hd : detect_collision cfg range? now current position target load s =
              ({ s with detecting := true, collision_start := some now },
               ⟨false, none⟩, false) := by
            simp [detect_collision, hc, hr, hdet', hdur]
          rw [hd]
          exact ⟨by simp, fun h0 => Or.inl h0⟩
    · -- no resistance
      have hr' : is_resisting cfg current position target load = false := by
        simpa using hr
      by_cases hb : s.backed_off = true ∧ |target - position| < 1/20
      · have hb2 : |target - position| < 20⁻¹ := by
          rw [← one_div]
          exact hb.2
        have hd : (detect_collision cfg range? now current position target
            load s).1.retry_count = 0 := by
          by_cases hdet : s.detecting = true <;>
            simp [detect_collision, hc, hr', hdet, hb.1, hb2]
        have hd2 : (detect_collision cfg range? now current position target
            load s).2.2 = false := by
          by_cases hdet : s.detecting = true <;>
            simp [detect_collision, hc, hr', hdet]
        exact ⟨by rw [hd2]; simp, fun _ => Or.inr ⟨hr', hb.1, hb.2⟩⟩
      · by_cases hdet : s.detecting = true
        · have hd : detect_collision cfg range? now current position target load s =
              ({ s with detecting := false, collision_start := none },
               ⟨false, none⟩, false) := by
            simp [detect_collision, hc, hr', hdet]
            intro hb1 hb2
            exact absurd ⟨hb1, by rw [← one_div] at hb2; exact hb2⟩ hb
          rw [hd]
          exact ⟨by simp, fun h0 => Or.inl h0⟩
        · have hdet' : s.detecting = false := by simpa using hdet
          have hd : detect_collision cfg range? now current position target load s =
              (s, ⟨false, none⟩, false) := by
            simp [detect_collision, hc, hr', hdet']
            intro hb1 hb2
            exact absurd ⟨hb1, by rw [← one_div] at hb2; exact hb2⟩ hb
          rw [hd]
          exact ⟨by simp, fun h0 => Or.inl h0⟩

/-- While every sample's current sits in the stall band and the timer
already runs from `t0`, each sample triggers the stall effects exactly
when its time is at least `current_stall_duration` past `t0`, and the
timer keeps its start time. -/
theorem run_stall_tracking (th : SafetyThresholds) (motor : String) (tl t0 : ℚ) :
    ∀ (samples : List (ℚ × ℚ)) (s : MotorSafetyState),
      s.high_current_start_time = some t0 →
      (∀ p ∈ samples,
        th.current_stall_threshold ≤ p.2 ∧ p.2 < th.current_spike_threshold) →
      (run_stall th motor tl s samples).2 =
          samples.map (fun p => if th.current_stall_duration ≤ p.1 - t0
            then stallFx motor p.2 else {}) ∧
        (run_stall th motor tl s samples).1.high_current_start_time = some t0 := by
  intro samples
  induction samples with
  | nil => exact fun s hs _ => ⟨rfl, hs⟩
  | cons p rest ih =>
    intro s hs hh
    obtain ⟨t, c⟩ := p
    have hc := hh (t, c) (List.mem_cons_self _ _)
    have hns : ¬ th.current_spike_threshold ≤ c := not_le.mpr hc.2
    have hstep : stall_sample th motor tl s t c =
        if th.current_stall_duration ≤ t - t0
          then ({ s with current := c, is_stalled := true }, stallFx motor c)
          else ({ s with current := c }, ({} : StallCheckEffects)) := by
      simp only [stall_sample, check_current_stall, stallFx]
      simp [hs, hns, hc.1]
    by_cases hdur : th.current_stall_duration ≤ t - t0
    · have htail := ih { s with current := c, is_stalled := true } hs
        (fun q hq => hh q (List.mem_cons_of_mem _ hq))
      simp only [run_stall, hstep, if_pos hdur]
      simp only [List.map_cons, if_pos hdur]
      exact ⟨by rw [← htail.1], htail.2⟩
    · have htail := ih { s with current := c } hs
        (fun q hq => hh q (List.mem_cons_of_mem _ hq))
      simp only [run_stall, hstep, if_neg hdur]
      simp only [List.map_cons, if_neg hdur]
      exact ⟨by rw [← htail.1], htail.2⟩

/-- C5: for a run of poll samples whose currents all lie in
`[current_stall_threshold, current_spike_threshold)` starting from an
idle timer, the first sample only starts the timer, and each later
sample triggers the stall response (stalled flag, CURRENT_STALL
violation, torque disable, `("stall_detected", motor, current)`
callback) exactly when its time is at least `current_stall_duration`
past the first sample's time; a sample whose current drops below
`current_stall_threshold` clears the timer and the stalled flag
immediately. -/
theorem stall_hysteresis_spec (th : SafetyThresholds) (motor : String) (tl : ℚ)
    (t0 c0 : ℚ) (rest : List (ℚ × ℚ)) (s : MotorSafetyState)
    (hth : th.current_stall_threshold ≤ th.current_spike_threshold)
    (hs : s.high_current_start_time = none)
    (h0 : th.current_stall_threshold ≤ c0 ∧ c0 < th.current_spike_threshold)
    (hrest : ∀ p ∈ rest,
      th.current_stall_threshold ≤ p.2 ∧ p.2 < th.current_spike_threshold) :
    (run_stall th motor tl s ((t0, c0) :: rest)).2 =
        ({} : StallCheckEffects) :: rest.map (fun p =>
          if th.current_stall_duration ≤ p.1 - t0 then stallFx motor p.2 else {}) ∧
      (∀ (s' : MotorSafetyState) (t c : ℚ), c < th.current_stall_threshold →
        stall_sample th motor tl s' t c =
          ({ s' with current := c, high_current_start_time := none,
                     is_stalled := false }, {})) ∧
      (∀ (s' : MotorSafetyState) (t1 c1 : ℚ),
        s'.high_current_start_time = some t0 →
        th.current_stall_threshold ≤ c1 → c1 < th.current_spike_threshold →
        th.current_stall_duration ≤ t1 - t0 →
        stall_sample th motor tl s' t1 c1 =
          ({ s' with current := c1, is_stalled := true }, stallFx motor c1)) := by
  refine ⟨?_, ?_, ?_⟩
  · have hstep : stall_sample th motor tl s t0 c0 =
        ({ s with current := c0, high_current_start_time := some t0 },
         ({} : StallCheckEffects)) := by
      simp only [stall_sample, check_current_stall]
      simp [hs, not_le.mpr h0.2, h0.1]
    have htail := run_stall_tracking th motor tl t0 rest
      { s with current := c0, high_current_start_time := some t0 } rfl hrest
    simp only [run_stall, hstep]
    rw [htail.1]
  · intro s' t c hlow
    have hns : ¬ th.current_spike_threshold ≤ c :=
      not_le.mpr (lt_of_lt_of_le hlow hth)
    have hnst : ¬ th.current_stall_threshold ≤ c := not_le.mpr hlow
    simp only [stall_sample, check_current_stall]
    simp [hns, hnst]
  · intro s' t1 c1 hs' h1 h2 hdur
    have hns : ¬ th.current_spike_threshold ≤ c1 := not_le.mpr h2
    simp only [stall_sample, check_current_stall, stallFx]
    simp [hs', hns, h1, hdur]

/-- C5, witness for `stall_hysteresis_spec`: default thresholds, samples
at t = 0 and t = 1 with current 900 mA — the first sample arms the timer
and the second (1 s ≥ 0.5 s) fires the stall response. -/
theorem stall_hysteresis_spec_witness :
    ({} : MotorSafetyState).high_current_start_time = none ∧
      (run_stall {} "m1" 1000 {} [(0, 900), (1, 900)]).2 =
        [({} : StallCheckEffects),
         if ({} : SafetyThresholds).current_stall_duration ≤ (1 : ℚ) - 0
           then stallFx "m1" 900 else {}] := by
  have h := stall_hysteresis_spec {} "m1" 1000 0 900 [(1, 900)] {}
    (by norm_num) rfl ⟨by norm_num, by norm_num⟩
    (by intro p hp; rw [List.mem_singleton] at hp; subst hp; exact ⟨by norm_num, by norm_num⟩)
  exact ⟨rfl, by rw [h.1]; rfl⟩

/-- `_calculate_optimal_frequency` keeps the monitoring frequency (which
no code ever writes, so it stays at its default 2 Hz) and keeps the
optimal frequency inside [0.5, 10]. -/
theorem calc_freq_preserves (m : PerformanceMetrics)
    (hmf : m.monitoring_frequency = 2)
    (hlo : 1/2 ≤ m.optimal_frequency) (hhi : m.optimal_frequency ≤ 10) :
    (calculate_optimal_frequency m).monitoring_frequency = 2 ∧
      1/2 ≤ (calculate_optimal_frequency m).optimal_frequency ∧
      (calculate_optimal_frequency m).optimal_frequency ≤ 10 := by
  simp only [calculate_optimal_frequency]
  split
  · exact ⟨hmf, hlo, hhi⟩
  · split_ifs <;> refine ⟨hmf, ?_, ?_⟩ <;> rw [hmf] <;> norm_num [min_def, max_def]

/-- `update_smoothness_metrics` only rewrites the jitter/smoothness
fields before handing off to `_calculate_optimal_frequency`, so the
frequency invariant survives it. -/
theorem update_smoothness_preserves (ps : List (String × ℚ)) (st : PerfState)
    (hmf : st.metrics.monitoring_frequency = 2)
    (hlo : 1/2 ≤ st.metrics.optimal_frequency)
    (hhi : st.metrics.optimal_frequency ≤ 10) :
    (update_smoothness_metrics ps st).metrics.monitoring_frequency = 2 ∧
      1/2 ≤ (update_smoothness_metrics ps st).metrics.optimal_frequency ∧
      (update_smoothness_metrics ps st).metrics.optimal_frequency ≤ 10 := by
  simp only [update_smoothness_metrics]
  refine calc_freq_preserves _ ?_ ?_ ?_ <;>
    · split
      · assumption
      · split <;> assumption

/-- C9: over every sequence of `update_smoothness_metrics` /
`record_latency` calls from the initial detector state, the adaptive
monitoring frequency reported by `get_adaptive_frequency` stays within
[0.5, 10] Hz. -/
theorem adaptive_frequency_bounded (ops : List PerfOp) :
    1/2 ≤ get_adaptive_frequency (runPerf {} ops) ∧
      get_adaptive_frequency (runPerf {} ops) ≤ 10 := by
  suffices h : ∀ st : PerfState, st.metrics.monitoring_frequency = 2 →
      1/2 ≤ st.metrics.optimal_frequency → st.metrics.optimal_frequency ≤ 10 →
      (runPerf st ops).metrics.monitoring_frequency = 2 ∧
        1/2 ≤ (runPerf st ops).metrics.optimal_frequency ∧
        (runPerf st ops).metrics.optimal_frequency ≤ 10 by
    have h0 := h {} rfl (by norm_num) (by norm_num)
    exact ⟨h0.2.1, h0.2.2⟩
  induction ops with
  | nil => exact fun st h1 h2 h3 => ⟨h1, h2, h3⟩
  | cons op rest ih =>
    intro st h1 h2 h3
    cases op with
    | update ps =>
      have h' := update_smoothness_preserves ps st h1 h2 h3
      exact ih _ h'.1 h'.2.1 h'.2.2
    | latency ms =>
      exact ih (record_latency ms st) h1 h2 h3

/-- The S-curve factor `0.5 * (1 - cos(pi * (i+1)/steps))` of the
soft-start trajectory. -/
noncomputable def softStartAlpha (steps i : ℕ) : ℝ :=
  1/2 * (1 - Real.cos (Real.pi * (((i : ℝ) + 1) / (steps : ℝ))))

/-- The trajectory entry is the S-curve fraction of the way to the
target. -/
theorem softStartPos_eq (steps : ℕ) (target current : ℝ) (i : ℕ) :
    softStartPos steps target current i =
      current + softStartAlpha steps i * (target - current) := rfl

/-- The S-curve factor is strictly increasing in the step index. -/
theorem softStartAlpha_strictMono (steps i j : ℕ) (hij : i < j) (hj : j < steps) :
    softStartAlpha steps i < softStartAlpha steps j := by
  unfold softStartAlpha
  have hs : 0 < steps := Nat.lt_of_le_of_lt (Nat.zero_le j) hj
  have hs' : (0 : ℝ) < steps := by exact_mod_cast hs
  have hx0 : 0 ≤ Real.pi * (((i : ℝ) + 1) / steps) := by positivity
  have hyp : Real.pi * (((j : ℝ) + 1) / steps) ≤ Real.pi := by
    have h1 : ((j : ℝ) + 1) / steps ≤ 1 := by
      rw [div_le_one hs']
      exact_mod_cast Nat.succ_le_of_lt hj
    calc Real.pi * (((j : ℝ) + 1) / steps) ≤ Real.pi * 1 :=
          mul_le_mul_of_nonneg_left h1 Real.pi_pos.le
      _ = Real.pi := mul_one _
  have hxy : Real.pi * (((i : ℝ) + 1) / steps) < Real.pi * (((j : ℝ) + 1) / steps) := by
    apply mul_lt_mul_of_pos_left _ Real.pi_pos
    rw [div_lt_div_iff_of_pos_right hs']
    exact_mod_cast Nat.succ_lt_succ hij
  have hcos := Real.cos_lt_cos_of_nonneg_of_le_pi hx0 hyp hxy
  linarith

/-- The S-curve factor is strictly positive at every in-range index. -/
theorem softStartAlpha_pos (steps i : ℕ) (hi : i < steps) :
    0 < softStartAlpha steps i := by
  unfold softStartAlpha
  have hs : 0 < steps := Nat.lt_of_le_of_lt (Nat.zero_le i) hi
  have hs' : (0 : ℝ) < steps := by exact_mod_cast hs
  have hyp : Real.pi * (((i : ℝ) + 1) / steps) ≤ Real.pi := by
    have h1 : ((i : ℝ) + 1) / steps ≤ 1 := by
      rw [div_le_one hs']
      exact_mod_cast Nat.succ_le_of_lt hi
    calc Real.pi * (((i : ℝ) + 1) / steps) ≤ Real.pi * 1 :=
          mul_le_mul_of_nonneg_left h1 Real.pi_pos.le
      _ = Real.pi := mul_one _
  have hx : 0 < Real.pi * (((i : ℝ) + 1) / steps) := by positivity
  have hcos := Real.cos_lt_cos_of_nonneg_of_le_pi (le_refl 0) hyp hx
  rw [Real.cos_zero] at hcos
  linarith

/-- The S-curve factor is strictly below 1 before the final step. -/
theorem softStartAlpha_lt_one (steps i : ℕ) (h : i + 1 < steps) :
    softStartAlpha steps i < 1 := by
  unfold softStartAlpha
  have hs : 0 < steps := Nat.lt_of_le_of_lt (Nat.zero_le (i + 1)) h
  have hs' : (0 : ℝ) < steps := by exact_mod_cast hs
  have hq : ((i : ℝ) + 1) / steps < 1 := by
    rw [div_lt_one hs']
    exact_mod_cast h
  have hx : Real.pi * (((i : ℝ) + 1) / steps) < Real.pi := by
    calc Real.pi * (((i : ℝ) + 1) / steps) < Real.pi * 1 :=
          mul_lt_mul_of_pos_left hq Real.pi_pos
      _ = Real.pi := mul_one _
  have hx0 : 0 ≤ Real.pi * (((i : ℝ) + 1) / steps) := by positivity
  have hcos := Real.cos_lt_cos_of_nonneg_of_le_pi hx0 (le_refl Real.pi) hx
  rw [Real.cos_pi] at hcos
  linarith

/-- The S-curve factor reaches exactly 1 at the final step. -/
theorem softStartAlpha_last (steps : ℕ) (h : 1 ≤ steps) :
    softStartAlpha steps (steps - 1) = 1 := by
  unfold softStartAlpha
  have hs' : (steps : ℝ) ≠ 0 := Nat.cast_ne_zero.mpr (by omega)
  rw [Nat.cast_sub h, Nat.cast_one]
  have hone : ((steps : ℝ) - 1 + 1) / steps = 1 := by field_simp
  rw [hone, mul_one, Real.cos_pi]
  norm_num

/-- C7, counterexample: when `current = target` (here both 0, default 10
steps) every trajectory entry equals the start, so the sequence is not
strictly monotonic and its first element is not strictly between current
and target — the claim fails for such pairs. -/
theorem soft_start_counterexample :
    apply_soft_start 10 (0 : ℝ) 0 = List.replicate 10 0 ∧
      ¬ strictlyBetween 0 ((apply_soft_start 10 (0 : ℝ) 0).headI) 0 := by
  have hrep : apply_soft_start 10 (0 : ℝ) 0 = List.replicate 10 0 := by
    refine List.eq_replicate.mpr ⟨by simp [apply_soft_start], ?_⟩
    intro b hb
    simp only [apply_soft_start, List.mem_map, List.mem_range] at hb
    obtain ⟨i, _, hb⟩ := hb
    rw [softStartPos_eq] at hb
    simpa using hb.symm
  refine ⟨hrep, ?_⟩
  rw [hrep]
  simp [strictlyBetween]

/-- C7 (amended): for `current ≠ target` and at least two soft-start
steps (the default is 10), `apply_soft_start` returns exactly
`soft_start_steps` positions, the `i`-th equal to
`current + 0.5*(1 - cos(pi*(i+1)/steps))*(target - current)`; the
sequence is strictly monotonic from current toward target, its first
element lies strictly between current and target, and its final element
equals target exactly.  (For `current = target` the list is constant:
see the counterexample.) -/
theorem apply_soft_start_spec (steps : ℕ) (target current : ℝ)
    (hsteps : 2 ≤ steps) (hne : current ≠ target) :
    (apply_soft_start steps target current).length = steps ∧
      (∀ i, i < steps → (apply_soft_start steps target current).get? i =
        some (current +
          (1/2 * (1 - Real.cos (Real.pi * (((i : ℝ) + 1) / (steps : ℝ))))) *
          (target - current))) ∧
      (current < target → (apply_soft_start steps target current).Pairwise (· < ·)) ∧
      (target < current → (apply_soft_start steps target current).Pairwise (· > ·)) ∧
      (apply_soft_start steps target current).get? 0 =
        some (softStartPos steps target current 0) ∧
      strictlyBetween current (softStartPos steps target current 0) target ∧
      (apply_soft_start steps target current).get? (steps - 1) = some target := by
  have hget : ∀ i, i < steps → (apply_soft_start steps target current).get? i =
      some (softStartPos steps target current i) := by
    intro i hi
    simp [apply_soft_start, List.get?_eq_getElem?, List.getElem?_range, hi]
  have hmono : ∀ i j, i < j → j < steps →
      (current < target →
        softStartPos steps target current i < softStartPos steps target current j) ∧
      (target < current →
        softStartPos steps target current j < softStartPos steps target current i) := by
    intro i j hij hj
    have ha := softStartAlpha_strictMono steps i j hij hj
    rw [softStartPos_eq, softStartPos_eq]
    constructor
    · intro hct
      have := mul_lt_mul_of_pos_right ha (sub_pos.mpr hct)
      linarith
    · intro htc
      have := mul_lt_mul_of_neg_right ha (sub_neg.mpr htc)
      linarith
  refine ⟨by simp [apply_soft_start], fun i hi => hget i hi, ?_, ?_, hget 0 (by omega),
    ?_, ?_⟩
  · intro hct
    rw [apply_soft_start, List.pairwise_map, List.pairwise_iff_get]
    intro a b hab
    rw [List.get_range, List.get_range]
    exact (hmono a.val b.val (by simpa using hab)
      (by simpa [List.length_range] using b.isLt)).1 hct
  · intro htc
    rw [apply_soft_start, List.pairwise_map, List.pairwise_iff_get]
    intro a b hab
    rw [List.get_range, List.get_range]
    exact (hmono a.val b.val (by simpa using hab)
      (by simpa [List.length_range] using b.isLt)).2 htc
  · have h1 : 0 < softStartAlpha steps 0 := softStartAlpha_pos steps 0 (by omega)
    have h2 : softStartAlpha steps 0 < 1 := softStartAlpha_lt_one steps 0 (by omega)
    rw [softStartPos_eq]
    rcases lt_or_gt_of_ne hne with h | h
    · refine Or.inl ⟨?_, ?_⟩
      · nlinarith [mul_pos h1 (sub_pos.mpr h)]
      · nlinarith [mul_pos (sub_pos.mpr h)
          (by linarith : (0:ℝ) < 1 - softStartAlpha steps 0)]
    · refine Or.inr ⟨?_, ?_⟩
      · nlinarith [mul_pos (sub_pos.mpr h)
          (by linarith : (0:ℝ) < 1 - softStartAlpha steps 0)]
      · nlinarith [mul_pos h1 (sub_pos.mpr h)]
  · rw [hget (steps - 1) (by omega), softStartPos_eq,
      softStartAlpha_last steps (by omega)]
    norm_num

/-- C7, witness for `apply_soft_start_spec` at 2 steps from 0 to 1. -/
theorem apply_soft_start_spec_witness :
    2 ≤ 2 ∧ (0 : ℝ) ≠ 1 ∧
      ((apply_soft_start 2 1 0).length = 2 ∧
        (∀ i, i < 2 → (apply_soft_start 2 1 0).get? i =
          some ((0 : ℝ) +
            (1/2 * (1 - Real.cos (Real.pi * (((i : ℝ) + 1) / (2 : ℝ))))) * (1 - 0))) ∧
        ((0 : ℝ) < 1 → (apply_soft_start 2 1 0).Pairwise (· < ·)) ∧
        ((1 : ℝ) < 0 → (apply_soft_start 2 1 0).Pairwise (· > ·)) ∧
        (apply_soft_start 2 1 0).get? 0 = some (softStartPos 2 1 0 0) ∧
        strictlyBetween 0 (softStartPos 2 1 0 0) 1 ∧
        (apply_soft_start 2 1 0).get? (2 - 1) = some 1) :=
  ⟨le_refl 2, by norm_num, apply_soft_start_spec 2 1 0 (le_refl 2) (by norm_num)⟩

end LeRobot
